import Mathlib

/-!
Verification of the hall-pass ("Smart Pass") subsystem of the school-operations
backend: data model, pass lifecycle engine, capacity checker, conflict-check
endpoints and the overtime sweeper, shallowly embedded from
`backend/app/services/pass_service.py`, `backend/app/repositories/pass_repository.py`,
`backend/app/repositories/base_repository.py` and `backend/routes/pass_advanced.py`.

Timestamps are modelled as natural numbers counting seconds since the Unix
epoch (1970-01-01 00:00:00 UTC, a Thursday).  Document stores are lists of
records; MongoDB `find_one` / `update_one` act on the first matching list
element, mirroring the unique-`_id` semantics of the source.
-/

namespace SmartPass

/-- Pass status enum, from `PassStatus` in `backend/models/passes.py`. -/
inductive PassStatus
  | pending
  | approved
  | active
  | completed
  | expired
  | cancelled
  | denied
deriving DecidableEq, Repr

/-- Location document (the fields read by the pass subsystem), from the
`Location` model in `backend/models/passes.py`. -/
structure Location where
  id : String
  name : String
  max_capacity : Option Nat
  requires_approval : Bool
  is_active : Bool
deriving DecidableEq, Repr

/-- Pass document, from the `Pass` model in `backend/models/passes.py` plus the
fields written by the repositories (`denied_by`, `denied_at`, `denial_reason`,
`end_time` which is queried by the encounter check and never written). -/
structure PassDoc where
  id : Nat
  student_id : String
  origin_location_id : String
  destination_location_id : String
  status : PassStatus
  requested_at : Option Nat
  approved_at : Option Nat
  approved_by : Option String
  departed_at : Option Nat
  returned_at : Option Nat
  denied_at : Option Nat
  denied_by : Option String
  denial_reason : Option String
  time_limit_minutes : Int
  is_overtime : Bool
  end_time : Option Nat
  notes : Option String
  created_at : Nat
  updated_at : Nat
deriving DecidableEq, Repr

/-- No-fly time document, from `NoFlyTimeCreate` in `backend/routes/pass_advanced.py`
(start and end stored as "HH:MM" strings, days with Monday = 0). -/
structure NoFlyTime where
  name : String
  start_time : String
  end_time : String
  days_of_week : List Int
  is_active : Bool
  description : Option String
deriving DecidableEq, Repr

/-- Encounter-prevention group document, from `EncounterGroupCreate` in
`backend/routes/pass_advanced.py`. -/
structure EncounterGroup where
  name : String
  student_ids : List String
  reason : String
  is_active : Bool
deriving DecidableEq, Repr

/-- The document database: the collections read or written by the pass
subsystem.  `users` keeps only the ids (the services test bare existence).
`app_settings` documents hold an optional `value` (a missing value falls back
to the caller-supplied default, as in `PassService._get_setting`).
`next_id` models the fresh `_id` the store hands to an insert. -/
structure DB where
  users : List String
  locations : List Location
  passes : List PassDoc
  no_fly_times : List NoFlyTime
  encounter_groups : List EncounterGroup
  app_settings : List (String × Option Int)
  next_id : Nat
deriving DecidableEq, Repr

/-- Error taxonomy of `backend/app/core/exceptions.py` as raised by the pass
service: `NotFoundException`, `BusinessLogicException`, `ValidationException`. -/
inductive AppError
  | notFound (msg : String)
  | businessRule (msg : String)
  | validation (msg : String)
deriving DecidableEq, Repr

/-- Python weekday of a timestamp (`datetime.weekday()`, Monday = 0).
The epoch was a Thursday, hence the offset 3. -/
def weekday (now : Nat) : Nat :=
  (now / 86400 + 3) % 7

/-- Two-digit zero-padded decimal rendering, as used by `strftime`. -/
def pad2 (n : Nat) : String :=
  if n < 10 then "0" ++ toString n else toString n

/-- `now.strftime("%H:%M")`: the time of day of a timestamp as an "HH:MM" string. -/
def hhmm (now : Nat) : String :=
  pad2 (now % 86400 / 3600) ++ ":" ++ pad2 (now % 3600 / 60)

/-- Python lexicographic `<=` on code-point lists (for "HH:MM" comparisons). -/
def chars_le : List Char → List Char → Bool
  | [], _ => true
  | _ :: _, [] => false
  | a :: as, b :: bs =>
    if a.toNat < b.toNat then true
    else if b.toNat < a.toNat then false
    else chars_le as bs

/-- Python string `<=` (lexicographic by code point). -/
def str_le (a b : String) : Bool :=
  chars_le a.data b.data

/-- `UserRepository.find_by_id` as used by the service: does the student exist. -/
def user_exists (db : DB) (sid : String) : Bool :=
  db.users.contains sid

/-- `LocationRepository.find_by_id` (first document with the given `_id`). -/
def find_location (db : DB) (lid : String) : Option Location :=
  db.locations.find? (fun l => l.id == lid)

/-- `PassRepository.find_by_id` (first document with the given `_id`). -/
def find_pass_by_id (db : DB) (pid : Nat) : Option PassDoc :=
  db.passes.find? (fun p => p.id == pid)

/-- `BaseRepository.update_one` on the passes collection: `$set` the fields
given by `f` on the first document whose `_id` matches (`_id`s are unique in
the store, and the service always updates the document it just looked up). -/
def update_one (l : List PassDoc) (pid : Nat) (f : PassDoc → PassDoc) : List PassDoc :=
  match l with
  | [] => []
  | p :: ps => if p.id == pid then f p :: ps else p :: update_one ps pid f

/-- `PassRepository.has_active_or_pending_pass`: a pass of the student with
status in `["active", "pending", "approved"]` exists. -/
def has_active_or_pending_pass (db : DB) (sid : String) : Bool :=
  db.passes.any (fun p =>
    p.student_id == sid &&
    (p.status == PassStatus.active || p.status == PassStatus.pending ||
      p.status == PassStatus.approved))

/-- `PassRepository.count_daily_passes_for_student`: passes of the student with
`requested_at` in `[start_of_day, start_of_day + 1 day)`, any status, where
`start_of_day` is midnight of the day containing `now`. -/
def count_daily_passes_for_student (db : DB) (sid : String) (now : Nat) : Nat :=
  (db.passes.filter (fun p =>
    p.student_id == sid &&
    (match p.requested_at with
     | some r => decide (now / 86400 * 86400 ≤ r) && decide (r < now / 86400 * 86400 + 86400)
     | none => false))).length

/-- `LocationRepository.count_active_passes_for_location`: passes with this
destination and status `"active"`. -/
def count_active_passes_for_location (db : DB) (lid : String) : Nat :=
  (db.passes.filter (fun p =>
    p.destination_location_id == lid && p.status == PassStatus.active)).length

/-- `LocationRepository.is_location_at_capacity`: false when the location is
missing or has no `max_capacity`; otherwise active-pass count `>= max_capacity`. -/
def is_location_at_capacity (db : DB) (lid : String) : Bool :=
  match find_location db lid with
  | none => false
  | some loc =>
    match loc.max_capacity with
    | none => false
    | some cap => decide (cap ≤ count_active_passes_for_location db lid)

/-- `PassService._get_setting`: the stored value of the key, or the default
when the document is absent or has no value. -/
def get_setting (db : DB) (key : String) (default : Int) : Int :=
  match db.app_settings.find? (fun kv => kv.1 == key) with
  | none => default
  | some kv => kv.2.getD default

/-- The `pass_data` document built by `PassService.request_pass`: status
`"active"` ("Auto-approve for now"), `departed_at = now` ("Auto-depart"),
timestamps set by `BaseRepository.insert_one`, fresh id from the store. -/
def new_pass_doc (db : DB) (now : Nat) (student_id origin_location_id destination_location_id : String)
    (time_limit_minutes : Int) (notes : Option String) : PassDoc :=
  { id := db.next_id
    student_id := student_id
    origin_location_id := origin_location_id
    destination_location_id := destination_location_id
    status := .active
    requested_at := some now
    approved_at := none
    approved_by := none
    departed_at := some now
    returned_at := none
    denied_at := none
    denied_by := none
    denial_reason := none
    time_limit_minutes := time_limit_minutes
    is_overtime := false
    end_time := none
    notes := notes
    created_at := now
    updated_at := now }

/-- `PassService.request_pass`.  Checks, in source order: student exists,
no active/pending/approved pass, origin and destination exist, destination
active, destination not at capacity, daily limit, time-limit range; then
inserts a single pass with status `"active"` and `departed_at = now`
("Auto-approve for now" / "Auto-depart" in the source). -/
def request_pass (db : DB) (now : Nat) (student_id origin_location_id destination_location_id : String)
    (time_limit_minutes : Int) (notes : Option String) :
    Except AppError (PassDoc × DB) :=
  if !(user_exists db student_id) then
    .error (.notFound "Student not found")
  else if has_active_or_pending_pass db student_id then
    .error (.businessRule
      "You already have an active or pending pass. Please end your current pass before requesting a new one.")
  else
    match find_location db origin_location_id with
    | none => .error (.notFound "Origin location not found")
    | some _ =>
      match find_location db destination_location_id with
      | none => .error (.notFound "Destination location not found")
      | some destination =>
        if !destination.is_active then
          .error (.businessRule "Destination location is not active")
        else if is_location_at_capacity db destination_location_id then
          .error (.businessRule
            (destination.name ++ " is currently at capacity. Please try again later."))
        else if (count_daily_passes_for_student db student_id now : Int) ≥
            get_setting db "max_daily_passes" 5 then
          .error (.businessRule
            ("You have reached your daily pass limit of " ++
              toString (get_setting db "max_daily_passes" 5) ++ " passes."))
        else if time_limit_minutes < 1 ∨ time_limit_minutes > 60 then
          .error (.validation "Time limit must be between 1 and 60 minutes")
        else
          .ok (new_pass_doc db now student_id origin_location_id destination_location_id
                time_limit_minutes notes,
               { db with
                 passes := db.passes ++
                   [new_pass_doc db now student_id origin_location_id destination_location_id
                     time_limit_minutes notes]
                 next_id := db.next_id + 1 })

/-- `PassRepository.end_pass`: set status `"completed"` and `returned_at = now`
(plus the `updated_at` bookkeeping of `BaseRepository.update_one`). -/
def end_pass_update (now : Nat) (p : PassDoc) : PassDoc :=
  { p with status := .completed, returned_at := some now, updated_at := now }

/-- `PassService.end_pass`: the pass must exist, belong to the student and be
active; then it is completed and the refetched document is returned. -/
def end_pass (db : DB) (now : Nat) (pass_id : Nat) (student_id : String) :
    Except AppError (Option PassDoc × DB) :=
  match find_pass_by_id db pass_id with
  | none => .error (.notFound "Pass not found")
  | some pass_doc =>
    if pass_doc.student_id ≠ student_id then
      .error (.businessRule "This pass does not belong to you")
    else if pass_doc.status ≠ PassStatus.active then
      .error (.businessRule "This pass has already been ended")
    else
      let db2 : DB := { db with passes := update_one db.passes pass_id (end_pass_update now) }
      .ok (find_pass_by_id db2 pass_id, db2)

/-- `PassRepository.approve_pass` update. -/
def approve_pass_update (now : Nat) (approved_by : String) (p : PassDoc) : PassDoc :=
  { p with status := .approved, approved_by := some approved_by,
           approved_at := some now, updated_at := now }

/-- `PassService.approve_pass`: the pass must exist and be pending; then it is
approved and the refetched document is returned. -/
def approve_pass (db : DB) (now : Nat) (pass_id : Nat) (approver_id : String) :
    Except AppError (Option PassDoc × DB) :=
  match find_pass_by_id db pass_id with
  | none => .error (.notFound "Pass not found")
  | some pass_doc =>
    if pass_doc.status ≠ PassStatus.pending then
      .error (.businessRule "Only pending passes can be approved")
    else
      let db2 : DB := { db with passes := update_one db.passes pass_id (approve_pass_update now approver_id) }
      .ok (find_pass_by_id db2 pass_id, db2)

/-- `PassRepository.deny_pass` update (the `denial_reason` key is `$set` only
when the reason is truthy, i.e. present and nonempty). -/
def deny_pass_update (now : Nat) (denied_by : String) (reason : Option String) (p : PassDoc) : PassDoc :=
  { p with status := .denied, denied_by := some denied_by, denied_at := some now,
           denial_reason :=
             (match reason with
              | some r => if r = "" then p.denial_reason else some r
              | none => p.denial_reason),
           updated_at := now }

/-- `PassService.deny_pass`: the pass must exist and be pending; then it is
denied and the refetched document is returned. -/
def deny_pass (db : DB) (now : Nat) (pass_id : Nat) (denier_id : String) (reason : Option String) :
    Except AppError (Option PassDoc × DB) :=
  match find_pass_by_id db pass_id with
  | none => .error (.notFound "Pass not found")
  | some pass_doc =>
    if pass_doc.status ≠ PassStatus.pending then
      .error (.businessRule "Only pending passes can be denied")
    else
      let db2 : DB := { db with passes := update_one db.passes pass_id (deny_pass_update now denier_id reason) }
      .ok (find_pass_by_id db2 pass_id, db2)

/-- Sort key for `sort=[("departed_at", -1)]`: a missing `departed_at` sorts
below every present timestamp (BSON null orders lowest). -/
def departed_sort_key (p : PassDoc) : Nat :=
  match p.departed_at with
  | none => 0
  | some d => d + 1

/-- Stable insertion step for the descending `departed_at` sort. -/
def insert_departed_desc (p : PassDoc) : List PassDoc → List PassDoc
  | [] => [p]
  | q :: qs =>
    if departed_sort_key q ≤ departed_sort_key p then p :: q :: qs
    else q :: insert_departed_desc p qs

/-- Stable descending sort by `departed_at` (models the Mongo cursor sort). -/
def sort_departed_desc : List PassDoc → List PassDoc
  | [] => []
  | p :: ps => insert_departed_desc p (sort_departed_desc ps)

/-- `PassRepository.find_all_active_passes`: passes with status `"active"`,
sorted by `departed_at` descending, limited to `limit`. -/
def find_all_active_passes (db : DB) (limit : Nat) : List PassDoc :=
  (sort_departed_desc (db.passes.filter (fun p => p.status == PassStatus.active))).take limit

/-- `PassRepository.mark_pass_overtime` update. -/
def mark_overtime_update (now : Nat) (p : PassDoc) : PassDoc :=
  { p with is_overtime := true, updated_at := now }

/-- The per-pass test of `PassService.check_and_mark_overtime_passes`:
`departed_at` present, not yet flagged, and elapsed seconds strictly above
`time_limit_minutes` minutes (the source compares `elapsed_seconds / 60`
against the limit, an exact division). -/
def overtime_condition (now : Nat) (p : PassDoc) : Bool :=
  match p.departed_at with
  | none => false
  | some d => !p.is_overtime && decide ((now : Int) - (d : Int) > p.time_limit_minutes * 60)

/-- `PassService.check_and_mark_overtime_passes`: scan the batch of active
passes (limit 500), mark each batch member meeting `overtime_condition` via
`mark_pass_overtime`, and return the number marked. -/
def check_and_mark_overtime_passes (db : DB) (now : Nat) : Nat × DB :=
  let active_passes := find_all_active_passes db 500
  active_passes.foldl
    (fun acc pass_doc =>
      if overtime_condition now pass_doc then
        (acc.1 + 1,
         { acc.2 with passes := update_one acc.2.passes pass_doc.id (mark_overtime_update now) })
      else acc)
    (0, db)

/-- `check_no_fly_time` in `backend/routes/pass_advanced.py`: among the first
100 active no-fly documents, find one whose `days_of_week` contains today's
weekday and whose string range `start_time <= "HH:MM" <= end_time` contains the
current time; return the flag and the rule's reason text (a stored null
description renders as Python's `"None"`). -/
def check_no_fly_time (db : DB) (now : Nat) : Bool × Option String :=
  match ((db.no_fly_times.filter (fun nft => nft.is_active)).take 100).find? (fun nft =>
      nft.days_of_week.contains ((weekday now : Nat) : Int) &&
      str_le nft.start_time (hhmm now) && str_le (hhmm now) nft.end_time) with
  | some nft =>
    (true, some (nft.name ++ ": " ++
      (match nft.description with
       | some d => d
       | none => "None")))
  | none => (false, none)

/-- The `groups` query of `check_encounter_prevention`: the first 100 active
encounter groups containing the student. -/
def encounter_groups_for (db : DB) (student_id : String) : List EncounterGroup :=
  (db.encounter_groups.filter (fun g =>
    g.is_active && g.student_ids.contains student_id)).take 100

/-- The `all_group_student_ids` union of `check_encounter_prevention`: the
other members of those groups. -/
def encounter_other_ids (db : DB) (student_id : String) : List String :=
  ((encounter_groups_for db student_id).map (fun g =>
    g.student_ids.filter (fun s => s != student_id))).flatten

/-- The `active_passes` query of `check_encounter_prevention`: passes (limit
100) of those other members with status `"active"` and null `end_time`. -/
def encounter_active_passes (db : DB) (student_id : String) : List PassDoc :=
  (db.passes.filter (fun p =>
    (encounter_other_ids db student_id).contains p.student_id &&
    p.status == PassStatus.active && p.end_time == none)).take 100

/-- `check_encounter_prevention` in `backend/routes/pass_advanced.py`: no
conflict when no active group contains the student or when none of the other
members holds an active pass; otherwise the conflicting students and the
joined group reasons. -/
def check_encounter_prevention (db : DB) (student_id : String) :
    Bool × List String × Option String :=
  if (encounter_groups_for db student_id).isEmpty then (false, [], none)
  else if (encounter_active_passes db student_id).isEmpty then (false, [], none)
  else (true, (encounter_active_passes db student_id).map (fun p => p.student_id),
        some ("Encounter prevention: " ++ String.intercalate ", "
          ((encounter_groups_for db student_id).map (fun g => g.reason))))

/-- The sequential operations of the pass lifecycle engine. -/
inductive Op
  | req (now : Nat) (student_id origin_location_id destination_location_id : String)
        (time_limit_minutes : Int) (notes : Option String)
  | approve (now : Nat) (pass_id : Nat) (approver_id : String)
  | deny (now : Nat) (pass_id : Nat) (denier_id : String) (reason : Option String)
  | endp (now : Nat) (pass_id : Nat) (student_id : String)
  | sweep (now : Nat)

/-- The state reached by one operation: the updated store on success, the
unchanged store when the service raises. -/
def applyOp (db : DB) : Op → DB
  | .req now sid oid did tl notes =>
    match request_pass db now sid oid did tl notes with
    | .ok r => r.2
    | .error _ => db
  | .approve now pid aid =>
    match approve_pass db now pid aid with
    | .ok r => r.2
    | .error _ => db
  | .deny now pid did_ reason =>
    match deny_pass db now pid did_ reason with
    | .ok r => r.2
    | .error _ => db
  | .endp now pid sid =>
    match end_pass db now pid sid with
    | .ok r => r.2
    | .error _ => db
  | .sweep now => (check_and_mark_overtime_passes db now).2

/-- The state reached by a sequence of operations. -/
def applyOps (db : DB) (ops : List Op) : DB :=
  ops.foldl applyOp db

/-- Non-terminal statuses: `{pending, approved, active}`. -/
def non_terminal (s : PassStatus) : Bool :=
  s == PassStatus.pending || s == PassStatus.approved || s == PassStatus.active

/-- Number of non-terminal passes of a student. -/
def non_terminal_count (db : DB) (sid : String) : Nat :=
  (db.passes.filter (fun p => p.student_id == sid && non_terminal p.status)).length

/-- The one-non-terminal-pass-per-student invariant. -/
def one_pass_invariant (db : DB) : Prop :=
  ∀ sid, non_terminal_count db sid ≤ 1

/-- Mark a pass when its id belongs to the scanned overtime set (used to state
what one sweep does to the store). -/
def cond_mark (now : Nat) (S : List PassDoc) (p : PassDoc) : PassDoc :=
  if S.any (fun q => q.id == p.id) then mark_overtime_update now p else p

/-- The batch members found overtime by one sweep. -/
def scanned_overtime (db : DB) (now : Nat) : List PassDoc :=
  (find_all_active_passes db 500).filter (overtime_condition now)

/-- The store state after a successful `request_pass`: the single insert. -/
def inserted_db (db : DB) (p : PassDoc) : DB :=
  { db with
    passes := db.passes ++ [p]
    next_id := db.next_id + 1 }

/-! ## Concrete test fixtures -/

/-- Fixture builder for location documents. -/
def fixture_location (id name : String) (max_capacity : Option Nat)
    (requires_approval is_active : Bool) : Location :=
  { id := id
    name := name
    max_capacity := max_capacity
    requires_approval := requires_approval
    is_active := is_active }

/-- Fixture builder for pass documents. -/
def fixture_pass (id : Nat) (student_id : String) (status : PassStatus)
    (requested_at departed_at : Option Nat) (time_limit_minutes : Int)
    (destination_location_id : String) (is_overtime : Bool) : PassDoc :=
  { id := id
    student_id := student_id
    origin_location_id := "L1"
    destination_location_id := destination_location_id
    status := status
    requested_at := requested_at
    approved_at := none
    approved_by := none
    departed_at := departed_at
    returned_at := none
    denied_at := none
    denied_by := none
    denial_reason := none
    time_limit_minutes := time_limit_minutes
    is_overtime := is_overtime
    end_time := none
    notes := none
    created_at := 0
    updated_at := 0 }

/-- Fixture: two students, two active destinations, empty pass store. -/
def C1_db : DB :=
  { users := ["s1", "s2"]
    locations := [fixture_location "L1" "Library" none false true,
                  fixture_location "L2" "Nurse" (some 2) false true]
    passes := []
    no_fly_times := []
    encounter_groups := []
    app_settings := []
    next_id := 0 }

/-- Fixture: a mixed operation sequence exercising request, end and sweep. -/
def C1_ops : List Op :=
  [Op.req 0 "s1" "L1" "L2" 5 none, Op.req 10 "s2" "L1" "L2" 5 none,
   Op.endp 60 0 "s1", Op.req 120 "s1" "L1" "L2" 5 none, Op.sweep 600]

/-- Fixture: the destination `L2` has `requires_approval = true`. -/
def C2_db : DB :=
  { users := ["s1"]
    locations := [fixture_location "L1" "Classroom 1" none false true,
                  fixture_location "L2" "Nurse" (some 2) true true]
    passes := []
    no_fly_times := []
    encounter_groups := []
    app_settings := []
    next_id := 0 }

/-- Fixture: an active no-fly window covering the current instant and an
active encounter group of s1 and s2 with s2 holding an active pass. -/
def C3_db : DB :=
  { users := ["s1", "s2"]
    locations := [fixture_location "L1" "Classroom 1" none false true,
                  fixture_location "L2" "Nurse" none false true]
    passes := [fixture_pass 0 "s2" PassStatus.active (some 0) (some 0) 5 "L2" false]
    no_fly_times := [{ name := "Morning Meeting"
                       start_time := "00:00"
                       end_time := "23:59"
                       days_of_week := [3]
                       is_active := true
                       description := some "No passes" }]
    encounter_groups := [{ name := "Keep apart"
                           student_ids := ["s1", "s2"]
                           reason := "known conflict"
                           is_active := true }]
    app_settings := []
    next_id := 1 }

/-- Fixture: five passes of s1 requested today, all in terminal statuses. -/
def C4_db : DB :=
  { users := ["s1"]
    locations := [fixture_location "L1" "Classroom 1" none false true,
                  fixture_location "L2" "Nurse" none false true]
    passes := [fixture_pass 0 "s1" PassStatus.denied (some 100) none 5 "L2" false,
               fixture_pass 1 "s1" PassStatus.completed (some 200) (some 200) 5 "L2" false,
               fixture_pass 2 "s1" PassStatus.cancelled (some 300) none 5 "L2" false,
               fixture_pass 3 "s1" PassStatus.denied (some 400) none 5 "L2" false,
               fixture_pass 4 "s1" PassStatus.completed (some 500) (some 500) 5 "L2" false]
    no_fly_times := []
    encounter_groups := []
    app_settings := []
    next_id := 5 }

/-- Fixture: destination `L2` has capacity 1 and one active pass to it. -/
def C5_db : DB :=
  { users := ["s1", "s2"]
    locations := [fixture_location "L1" "Classroom 1" none false true,
                  fixture_location "L2" "Nurse" (some 1) false true]
    passes := [fixture_pass 0 "s2" PassStatus.active (some 0) (some 0) 5 "L2" false]
    no_fly_times := []
    encounter_groups := []
    app_settings := []
    next_id := 1 }

/-- Fixture: one active pass of s1, departed at time 0. -/
def C6_db : DB :=
  { users := ["s1", "s2"]
    locations := []
    passes := [fixture_pass 0 "s1" PassStatus.active (some 0) (some 0) 5 "L2" false]
    no_fly_times := []
    encounter_groups := []
    app_settings := []
    next_id := 1 }

/-- Fixture: one active pass 10 minutes out on a 5-minute limit, one within
its limit. -/
def C7_db : DB :=
  { users := ["s1", "s2"]
    locations := []
    passes := [fixture_pass 0 "s1" PassStatus.active (some 0) (some 0) 5 "L2" false,
               fixture_pass 1 "s2" PassStatus.active (some 550) (some 550) 5 "L2" false]
    no_fly_times := []
    encounter_groups := []
    app_settings := []
    next_id := 2 }

/-- Fixture: both conflict conditions hold (no-fly window covering now, and
an encounter partner with an active pass). -/
def C8_db : DB :=
  { users := ["s1", "s2"]
    locations := [fixture_location "L1" "Classroom 1" none false true,
                  fixture_location "L2" "Nurse" none false true]
    passes := [fixture_pass 0 "s2" PassStatus.active (some 0) (some 0) 5 "L2" false]
    no_fly_times := [{ name := "Morning Meeting"
                       start_time := "00:00"
                       end_time := "23:59"
                       days_of_week := [3]
                       is_active := true
                       description := none }]
    encounter_groups := [{ name := "Keep apart"
                           student_ids := ["s1", "s2"]
                           reason := "known conflict"
                           is_active := true }]
    app_settings := []
    next_id := 1 }

/-- Fixture: an approved pass of s1. -/
def C9_pass : PassDoc :=
  fixture_pass 0 "s1" PassStatus.approved (some 0) none 5 "L2" false

/-- Fixture: store holding the approved pass of s1. -/
def C9_db : DB :=
  { users := ["s1", "t1"]
    locations := [fixture_location "L1" "Classroom 1" none false true,
                  fixture_location "L2" "Nurse" none false true]
    passes := [C9_pass]
    no_fly_times := []
    encounter_groups := []
    app_settings := []
    next_id := 1 }

/-- Fixture: operations attempting to move the approved pass. -/
def C9_ops : List Op :=
  [Op.sweep 5, Op.endp 6 0 "s1", Op.approve 7 0 "t1", Op.deny 8 0 "t1" none,
   Op.req 9 "s1" "L1" "L2" 5 none]

/-- Fixture: a store with a single location, so destination `LX` is missing. -/
def C10_db : DB :=
  { users := ["s1"]
    locations := [fixture_location "L1" "Classroom 1" none false true]
    passes := []
    no_fly_times := []
    encounter_groups := []
    app_settings := []
    next_id := 0 }

/-! ## Helper lemmas about the store primitives -/

/-- The status filter of `has_active_or_pending_pass` is the non-terminal test. -/
theorem status_in_eq_non_terminal (s : PassStatus) :
    (s == PassStatus.active || s == PassStatus.pending || s == PassStatus.approved)
      = non_terminal s := by
  cases s <;> rfl

/-- A student with no active/pending/approved pass has non-terminal count zero. -/
theorem non_terminal_count_eq_zero {db : DB} {sid : String}
    (h : has_active_or_pending_pass db sid = false) :
    non_terminal_count db sid = 0 := by
  unfold has_active_or_pending_pass at h
  unfold non_terminal_count
  rw [List.length_eq_zero, List.filter_eq_nil_iff]
  rw [List.any_eq_false] at h
  intro p hp
  have := h p hp
  simpa [status_in_eq_non_terminal] using this

/-- `update_one` is the identity when no document has the id. -/
theorem update_one_of_find?_none {l : List PassDoc} {pid : Nat} {f : PassDoc → PassDoc}
    (h : l.find? (fun p => p.id == pid) = none) :
    update_one l pid f = l := by
  induction l with
  | nil => rfl
  | cons p ps ih =>
    rw [List.find?_cons] at h
    unfold update_one
    cases hid : (p.id == pid) with
    | true => simp [hid] at h
    | false =>
      simp only [hid, Bool.false_eq_true, if_false]
      rw [ih (by simpa [hid] using h)]

/-- `update_one` does not increase a filter count provided the update preserves
membership in the filter on the (unique) updated document. -/
theorem filter_update_one_length_le {l : List PassDoc} {pid : Nat}
    {f : PassDoc → PassDoc} {P : PassDoc → Bool}
    (h : ∀ q, l.find? (fun p => p.id == pid) = some q → P (f q) = true → P q = true) :
    ((update_one l pid f).filter P).length ≤ (l.filter P).length := by
  induction l with
  | nil => simp [update_one]
  | cons p ps ih =>
    unfold update_one
    cases hid : (p.id == pid) with
    | true =>
      have hpq : P (f p) = true → P p = true := by
        refine h p ?_ ; rw [List.find?_cons, hid]
      simp only [if_true]
      rw [List.filter_cons, List.filter_cons]
      cases hfp : P (f p) with
      | true => simp [hfp, hpq hfp]
      | false => cases hp : P p <;> simp [hfp, hp]
    | false =>
      have htail : ∀ q, ps.find? (fun p => p.id == pid) = some q →
          P (f q) = true → P q = true := by
        intro q hq
        refine h q ?_
        rw [List.find?_cons, hid]; exact hq
      simp only [Bool.false_eq_true, if_false]
      rw [List.filter_cons, List.filter_cons]
      cases hp : P p with
      | true => simpa [hp] using Nat.succ_le_succ (ih htail)
      | false => simpa [hp] using ih htail

/-- A document other than the one found by id survives `update_one` unchanged. -/
theorem mem_update_one_of_ne {l : List PassDoc} {pid : Nat} {f : PassDoc → PassDoc}
    {q0 p : PassDoc}
    (h : l.find? (fun r => r.id == pid) = some q0) (hp : p ∈ l) (hne : p ≠ q0) :
    p ∈ update_one l pid f := by
  induction l with
  | nil => cases hp
  | cons a as ih =>
    rw [List.find?_cons] at h
    unfold update_one
    cases hid : (a.id == pid) with
    | true =>
      simp only [hid] at h
      cases h
      rcases List.mem_cons.mp hp with rfl | hmem
      · exact absurd rfl hne
      · simp [List.mem_cons, hmem]
    | false =>
      simp only [hid] at h
      rcases List.mem_cons.mp hp with rfl | hmem
      · simp
      · simp only [Bool.false_eq_true, if_false, List.mem_cons]
        exact Or.inr (ih h hmem)

/-- Looking up the updated id after `update_one` yields the updated document
(provided the update keeps the id). -/
theorem find?_update_one {l : List PassDoc} {pid : Nat} {f : PassDoc → PassDoc}
    (hf : ∀ p, (f p).id = p.id) :
    (update_one l pid f).find? (fun p => p.id == pid)
      = (l.find? (fun p => p.id == pid)).map f := by
  induction l with
  | nil => rfl
  | cons p ps ih =>
    unfold update_one
    cases hid : (p.id == pid) with
    | true =>
      have : ((f p).id == pid) = true := by rw [hf]; exact hid
      simp [List.find?_cons, this, hid]
    | false =>
      simp [List.find?_cons, hid, ih]

/-- An update that preserves id, student and status preserves the existence of
a document with a given id, student and status. -/
theorem exists_mem_update_one {l : List PassDoc} {pid : Nat} {f : PassDoc → PassDoc}
    (hf : ∀ r, (f r).id = r.id ∧ (f r).student_id = r.student_id ∧ (f r).status = r.status)
    {i : Nat} {s : String} {st : PassStatus}
    (h : ∃ q ∈ l, q.id = i ∧ q.student_id = s ∧ q.status = st) :
    ∃ q ∈ update_one l pid f, q.id = i ∧ q.student_id = s ∧ q.status = st := by
  induction l with
  | nil => exact absurd h (by simp)
  | cons a as ih =>
    obtain ⟨q, hq, hqp⟩ := h
    unfold update_one
    cases hid : (a.id == pid) with
    | true =>
      rcases List.mem_cons.mp hq with rfl | hmem
      · exact ⟨f q, by simp, by simpa [hf q] using hqp⟩
      · exact ⟨q, by simp [List.mem_cons, hmem], hqp⟩
    | false =>
      rcases List.mem_cons.mp hq with rfl | hmem
      · exact ⟨q, by simp, hqp⟩
      · obtain ⟨q', hq', hq'p⟩ := ih ⟨q, hmem, hqp⟩
        exact ⟨q', by simp [List.mem_cons, hq'], hq'p⟩

/-- With pairwise distinct ids, `update_one` is the conditional map over the list. -/
theorem update_one_eq_map {l : List PassDoc} {pid : Nat} {f : PassDoc → PassDoc}
    (hnd : (l.map (fun p => p.id)).Nodup) :
    update_one l pid f = l.map (fun p => if p.id == pid then f p else p) := by
  induction l with
  | nil => rfl
  | cons a as ih =>
    simp only [List.map_cons, List.nodup_cons, List.mem_map] at hnd
    unfold update_one
    cases hid : (a.id == pid) with
    | true =>
      have haid : a.id = pid := by simpa using hid
      simp only [hid, if_true, List.map_cons, List.cons.injEq, true_and]
      have : ∀ p ∈ as, (if p.id == pid then f p else p) = p := by
        intro p hp
        have : p.id ≠ pid := by
          intro hc
          exact hnd.1 ⟨p, hp, by rw [hc, haid]⟩
        simp [this]
      rw [List.map_congr_left this, List.map_id']
    | false =>
      simp only [hid, Bool.false_eq_true, if_false, List.map_cons, List.cons.injEq, true_and]
      exact ih hnd.2

/-! ## Lemmas about the `departed_at` sort -/

/-- Inserting permutes to a cons. -/
theorem insert_departed_desc_perm (p : PassDoc) (l : List PassDoc) :
    (insert_departed_desc p l).Perm (p :: l) := by
  induction l with
  | nil => exact List.Perm.refl _
  | cons q qs ih =>
    unfold insert_departed_desc
    by_cases h : departed_sort_key q ≤ departed_sort_key p
    · simp only [h, if_true]; exact List.Perm.refl _
    · simp only [h, if_false]
      exact (ih.cons q).trans (List.Perm.swap p q qs)

/-- The sort is a permutation. -/
theorem sort_departed_desc_perm (l : List PassDoc) :
    (sort_departed_desc l).Perm l := by
  induction l with
  | nil => exact List.Perm.refl _
  | cons p ps ih =>
    exact (insert_departed_desc_perm p (sort_departed_desc ps)).trans (ih.cons p)

/-- Insertion commutes with a sort-key-preserving map. -/
theorem insert_departed_desc_map {g : PassDoc → PassDoc}
    (hg : ∀ q, departed_sort_key (g q) = departed_sort_key q) (p : PassDoc) (l : List PassDoc) :
    insert_departed_desc (g p) (l.map g) = (insert_departed_desc p l).map g := by
  induction l with
  | nil => rfl
  | cons q qs ih =>
    unfold insert_departed_desc
    simp only [List.map_cons, hg]
    by_cases h : departed_sort_key q ≤ departed_sort_key p
    · simp [h]
    · simp [h, ih]

/-- The sort commutes with a sort-key-preserving map. -/
theorem sort_departed_desc_map {g : PassDoc → PassDoc}
    (hg : ∀ q, departed_sort_key (g q) = departed_sort_key q) (l : List PassDoc) :
    sort_departed_desc (l.map g) = (sort_departed_desc l).map g := by
  induction l with
  | nil => rfl
  | cons p ps ih =>
    unfold sort_departed_desc
    simp only [List.map_cons]
    rw [ih, insert_departed_desc_map hg]

/-- Members of the active batch are active members of the store. -/
theorem mem_find_all_active_passes {db : DB} {n : Nat} {p : PassDoc}
    (h : p ∈ find_all_active_passes db n) :
    p ∈ db.passes ∧ p.status = PassStatus.active := by
  unfold find_all_active_passes at h
  have h1 : p ∈ sort_departed_desc (db.passes.filter (fun p => p.status == PassStatus.active)) :=
    (List.take_sublist _ _).subset h
  have h2 := (sort_departed_desc_perm _).mem_iff.mp h1
  have h3 := List.mem_filter.mp h2
  exact ⟨h3.1, by simpa using h3.2⟩

/-- The batch scan commutes with a status- and key-preserving map of the store. -/
theorem find_all_active_passes_map {db db2 : DB} {g : PassDoc → PassDoc} {n : Nat}
    (hpasses : db2.passes = db.passes.map g)
    (hstat : ∀ q, (g q).status = q.status)
    (hkey : ∀ q, departed_sort_key (g q) = departed_sort_key q) :
    find_all_active_passes db2 n = (find_all_active_passes db n).map g := by
  unfold find_all_active_passes
  rw [hpasses, List.filter_map]
  have : (fun p => p.status == PassStatus.active) ∘ g
      = (fun p => p.status == PassStatus.active) := by
    funext q; simp [Function.comp, hstat q]
  rw [this, sort_departed_desc_map hkey, List.map_take]

/-- The batch inherits distinct ids from the store. -/
theorem nodup_ids_find_all_active_passes {db : DB} {n : Nat}
    (hnd : (db.passes.map (fun p => p.id)).Nodup) :
    ((find_all_active_passes db n).map (fun p => p.id)).Nodup := by
  unfold find_all_active_passes
  have h1 : (((db.passes.filter (fun p => p.status == PassStatus.active)).map
      (fun p => p.id))).Nodup :=
    ((List.filter_sublist _).map _).nodup hnd
  have h2 : ((sort_departed_desc (db.passes.filter (fun p => p.status == PassStatus.active))).map
      (fun p => p.id)).Nodup :=
    (((sort_departed_desc_perm _).map _).nodup_iff).mpr h1
  exact ((List.take_sublist _ _).map _).nodup h2

/-! ## The overtime sweep as a conditional map -/

theorem cond_mark_nil (now : Nat) (p : PassDoc) : cond_mark now [] p = p := by
  simp [cond_mark]

theorem cond_mark_id (now : Nat) (S : List PassDoc) (p : PassDoc) :
    (cond_mark now S p).id = p.id := by
  unfold cond_mark; split <;> rfl

theorem cond_mark_student_id (now : Nat) (S : List PassDoc) (p : PassDoc) :
    (cond_mark now S p).student_id = p.student_id := by
  unfold cond_mark; split <;> rfl

theorem cond_mark_status (now : Nat) (S : List PassDoc) (p : PassDoc) :
    (cond_mark now S p).status = p.status := by
  unfold cond_mark; split <;> rfl

theorem cond_mark_key (now : Nat) (S : List PassDoc) (p : PassDoc) :
    departed_sort_key (cond_mark now S p) = departed_sort_key p := by
  unfold cond_mark; split <;> simp [departed_sort_key, mark_overtime_update]

/-- A pass already marked by the sweep update never tests overtime again. -/
theorem overtime_condition_mark (now now2 : Nat) (p : PassDoc) :
    overtime_condition now2 (mark_overtime_update now p) = false := by
  unfold overtime_condition mark_overtime_update
  cases p.departed_at <;> simp

/-- One marking step followed by a conditional mark is the conditional mark of
the enlarged set. -/
theorem cond_mark_cons (now : Nat) (q : PassDoc) (S : List PassDoc) (p : PassDoc) :
    cond_mark now S (if p.id == q.id then mark_overtime_update now p else p)
      = cond_mark now (q :: S) p := by
  by_cases h : p.id = q.id
  · have e1 : (p.id == q.id) = true := by simp [h]
    have e2 : (q.id == p.id) = true := by simp [h]
    have hm : (mark_overtime_update now p).id = p.id := rfl
    have hmm : mark_overtime_update now (mark_overtime_update now p)
        = mark_overtime_update now p := rfl
    simp [e1, e2, hm, hmm, cond_mark, List.any_cons]
  · have h1 : (p.id == q.id) = false := by simp [h]
    have h2 : (q.id == p.id) = false := by simp [Ne.symm h]
    simp only [h1, Bool.false_eq_true, if_false, cond_mark, List.any_cons, h2, Bool.false_or]

/-- The sweep fold, for any batch, counts the batch members meeting the
overtime test and applies the conditional mark to the whole store. -/
theorem sweep_fold_eq (now : Nat) (batch : List PassDoc) :
    ∀ (n : Nat) (db : DB), (db.passes.map (fun p => p.id)).Nodup →
    batch.foldl
      (fun acc pass_doc =>
        if overtime_condition now pass_doc then
          (acc.1 + 1,
           { acc.2 with passes := update_one acc.2.passes pass_doc.id (mark_overtime_update now) })
        else acc)
      (n, db)
    = (n + (batch.filter (overtime_condition now)).length,
       { db with passes := db.passes.map (cond_mark now (batch.filter (overtime_condition now))) }) := by
  induction batch with
  | nil =>
    intro n db _
    have hmap : db.passes.map (cond_mark now []) = db.passes := by
      rw [List.map_congr_left fun p _ => cond_mark_nil now p, List.map_id']
    simp only [List.foldl_nil, List.filter_nil, List.length_nil, Nat.add_zero, hmap]
  | cons q rest ih =>
    intro n db hnd
    rw [List.foldl_cons]
    by_cases hc : overtime_condition now q = true
    · rw [if_pos hc, update_one_eq_map hnd]
      have hnd2 : ((db.passes.map (fun p => if p.id == q.id then mark_overtime_update now p else p)).map
          (fun p => p.id)).Nodup := by
        rw [List.map_map]
        have : ((fun p : PassDoc => p.id) ∘ fun p => if p.id == q.id then mark_overtime_update now p else p)
            = fun p : PassDoc => p.id := by
          funext p
          by_cases h : (p.id == q.id) = true <;>
            simp [Function.comp, h, mark_overtime_update]
        rw [this]; exact hnd
      rw [ih (n + 1) _ hnd2]
      have hfil : (q :: rest).filter (overtime_condition now)
          = q :: rest.filter (overtime_condition now) := by
        rw [List.filter_cons, if_pos hc]
      rw [hfil]
      have hpass : (db.passes.map (fun p => if p.id == q.id then mark_overtime_update now p else p)).map
          (cond_mark now (rest.filter (overtime_condition now)))
          = db.passes.map (cond_mark now (q :: rest.filter (overtime_condition now))) := by
        rw [List.map_map]
        exact List.map_congr_left fun p _ =>
          cond_mark_cons now q (rest.filter (overtime_condition now)) p
      refine Prod.ext ?_ ?_
      · simp only [List.length_cons]; omega
      · exact congrArg (fun X => ({ db with passes := X } : DB)) hpass
    · rw [if_neg hc, ih n db hnd, List.filter_cons, if_neg hc]

/-- One sweep, on a store with distinct ids: the count is the number of batch
members meeting the overtime test, and the store gets exactly those marked. -/
theorem sweep_spec (db : DB) (now : Nat)
    (hnd : (db.passes.map (fun p => p.id)).Nodup) :
    check_and_mark_overtime_passes db now
      = ((scanned_overtime db now).length,
         { db with passes := db.passes.map (cond_mark now (scanned_overtime db now)) }) := by
  have h := sweep_fold_eq now (find_all_active_passes db 500) 0 db hnd
  rw [Nat.zero_add] at h
  exact h

/-- A repeated sweep with unchanged state marks nothing and leaves the store
unchanged. -/
theorem sweep_twice (db : DB) (now : Nat)
    (hnd : (db.passes.map (fun p => p.id)).Nodup) :
    check_and_mark_overtime_passes (check_and_mark_overtime_passes db now).2 now
      = (0, (check_and_mark_overtime_passes db now).2) := by
  have h1 := sweep_spec db now hnd
  have hp2 : (check_and_mark_overtime_passes db now).2.passes
      = db.passes.map (cond_mark now (scanned_overtime db now)) := by rw [h1]
  have hcomp : ((fun p : PassDoc => p.id) ∘ cond_mark now (scanned_overtime db now))
      = fun p : PassDoc => p.id := by
    funext p; exact cond_mark_id now _ p
  have hndF : ((check_and_mark_overtime_passes db now).2.passes.map (fun p => p.id)).Nodup := by
    rw [hp2, List.map_map, hcomp]; exact hnd
  have hbatch : find_all_active_passes (check_and_mark_overtime_passes db now).2 500
      = (find_all_active_passes db 500).map (cond_mark now (scanned_overtime db now)) :=
    find_all_active_passes_map hp2 (cond_mark_status now _) (cond_mark_key now _)
  have hscan : scanned_overtime (check_and_mark_overtime_passes db now).2 now = [] := by
    unfold scanned_overtime
    rw [hbatch, List.filter_map]
    have hall : ∀ q ∈ find_all_active_passes db 500,
        ¬ ((overtime_condition now ∘ cond_mark now (scanned_overtime db now)) q = true) := by
      intro q hq
      by_cases hof : ((scanned_overtime db now).any fun r => r.id == q.id) = true
      · simp [Function.comp, cond_mark, hof, overtime_condition_mark]
      · simp only [Function.comp, cond_mark, hof, Bool.false_eq_true, if_false]
        intro hcq
        refine hof ?_
        rw [List.any_eq_true]
        exact ⟨q, List.mem_filter.mpr ⟨hq, hcq⟩, by simp⟩
    rw [List.filter_eq_nil_iff.mpr hall, List.map_nil]
  have h2 := sweep_spec (check_and_mark_overtime_passes db now).2 now hndF
  rw [h2, hscan]
  have hmap : (check_and_mark_overtime_passes db now).2.passes.map (cond_mark now [])
      = (check_and_mark_overtime_passes db now).2.passes := by
    rw [List.map_congr_left fun p _ => cond_mark_nil now p, List.map_id']
  simp only [List.length_nil, hmap]

/-! ## Forward and inversion lemmas for the service operations -/

/-- When every precondition of `request_pass` holds, the result is the single
insert of the new active pass. -/
theorem request_pass_ok {db : DB} {now : Nat} {sid oid did : String} {tl : Int}
    {notes : Option String} {o d : Location}
    (h1 : user_exists db sid = true)
    (h2 : has_active_or_pending_pass db sid = false)
    (ho : find_location db oid = some o)
    (hd : find_location db did = some d)
    (h4 : d.is_active = true)
    (h5 : is_location_at_capacity db did = false)
    (h6 : (count_daily_passes_for_student db sid now : Int) < get_setting db "max_daily_passes" 5)
    (h7l : 1 ≤ tl) (h7r : tl ≤ 60) :
    request_pass db now sid oid did tl notes
      = .ok (new_pass_doc db now sid oid did tl notes,
             inserted_db db (new_pass_doc db now sid oid did tl notes)) := by
  unfold request_pass inserted_db
  rw [if_neg (by simp [h1]), if_neg (by simp [h2])]
  simp only [ho, hd]
  rw [if_neg (by simp [h4]), if_neg (by simp [h5]),
    if_neg (not_le.mpr h6), if_neg (by omega)]

/-- Inversion: a successful `request_pass` implies every precondition and pins
down the created pass and the new store. -/
theorem request_pass_ok_inv {db : DB} {now : Nat} {sid oid did : String} {tl : Int}
    {notes : Option String} {p : PassDoc} {db2 : DB}
    (h : request_pass db now sid oid did tl notes = .ok (p, db2)) :
    user_exists db sid = true ∧
    has_active_or_pending_pass db sid = false ∧
    (∃ o, find_location db oid = some o) ∧
    (∃ d, find_location db did = some d ∧ d.is_active = true) ∧
    is_location_at_capacity db did = false ∧
    ((count_daily_passes_for_student db sid now : Int) < get_setting db "max_daily_passes" 5) ∧
    (1 ≤ tl ∧ tl ≤ 60) ∧
    p = new_pass_doc db now sid oid did tl notes ∧
    db2 = inserted_db db p := by
  unfold request_pass at h
  split at h
  · exact Except.noConfusion h
  next hc1 =>
  split at h
  · exact Except.noConfusion h
  next hc2 =>
  split at h
  · exact Except.noConfusion h
  next o ho =>
  split at h
  · exact Except.noConfusion h
  next d hd =>
  split at h
  · exact Except.noConfusion h
  next hc4 =>
  split at h
  · exact Except.noConfusion h
  next hc5 =>
  split at h
  · exact Except.noConfusion h
  next hc6 =>
  split at h
  · exact Except.noConfusion h
  next hc7 =>
  injection h with h
  injection h with hp hdb
  refine ⟨by simpa using hc1, by simpa using hc2, ⟨o, ho⟩, ⟨d, hd, by simpa using hc4⟩,
    by simpa using hc5, not_le.mp hc6, by omega, hp.symm, ?_⟩
  unfold inserted_db
  rw [← hdb, hp]

/-- Inversion: a successful `approve_pass` found a pending pass and updated it. -/
theorem approve_pass_ok_inv {db : DB} {now : Nat} {pid : Nat} {aid : String}
    {r : Option PassDoc × DB}
    (h : approve_pass db now pid aid = .ok r) :
    ∃ q, find_pass_by_id db pid = some q ∧ q.status = PassStatus.pending ∧
      r.2 = { db with passes := update_one db.passes pid (approve_pass_update now aid) } := by
  unfold approve_pass at h
  split at h
  · exact Except.noConfusion h
  next q hf =>
  split at h
  · exact Except.noConfusion h
  next hs =>
  injection h with h
  exact ⟨q, hf, not_not.mp hs, by rw [← h]⟩

/-- Inversion: a successful `deny_pass` found a pending pass and updated it. -/
theorem deny_pass_ok_inv {db : DB} {now : Nat} {pid : Nat} {did_ : String}
    {reason : Option String} {r : Option PassDoc × DB}
    (h : deny_pass db now pid did_ reason = .ok r) :
    ∃ q, find_pass_by_id db pid = some q ∧ q.status = PassStatus.pending ∧
      r.2 = { db with passes := update_one db.passes pid (deny_pass_update now did_ reason) } := by
  unfold deny_pass at h
  split at h
  · exact Except.noConfusion h
  next q hf =>
  split at h
  · exact Except.noConfusion h
  next hs =>
  injection h with h
  exact ⟨q, hf, not_not.mp hs, by rw [← h]⟩

/-- Inversion: a successful `end_pass` found an owned active pass and updated it. -/
theorem end_pass_ok_inv {db : DB} {now : Nat} {pid : Nat} {sid : String}
    {r : Option PassDoc × DB}
    (h : end_pass db now pid sid = .ok r) :
    ∃ q, find_pass_by_id db pid = some q ∧ q.student_id = sid ∧
      q.status = PassStatus.active ∧
      r.2 = { db with passes := update_one db.passes pid (end_pass_update now) } := by
  unfold end_pass at h
  split at h
  · exact Except.noConfusion h
  next q hf =>
  split at h
  · exact Except.noConfusion h
  next hsid =>
  split at h
  · exact Except.noConfusion h
  next hs =>
  injection h with h
  exact ⟨q, hf, not_not.mp hsid, not_not.mp hs, by rw [← h]⟩

/-! ## Preservation of the one-pass invariant -/

/-- The sweep fold never increases any student's non-terminal count. -/
theorem sweep_fold_count_le (now : Nat) (batch : List PassDoc) (sid : String) :
    ∀ (n : Nat) (db : DB),
    non_terminal_count
      (batch.foldl
        (fun acc pass_doc =>
          if overtime_condition now pass_doc then
            (acc.1 + 1,
             { acc.2 with passes := update_one acc.2.passes pass_doc.id (mark_overtime_update now) })
          else acc)
        (n, db)).2 sid ≤ non_terminal_count db sid := by
  induction batch with
  | nil => intro n db; exact le_refl _
  | cons q rest ih =>
    intro n db
    rw [List.foldl_cons]
    by_cases hc : overtime_condition now q = true
    · rw [if_pos hc]
      refine le_trans (ih _ _) ?_
      unfold non_terminal_count
      exact filter_update_one_length_le (fun q' _ hP => hP)
    · rw [if_neg hc]
      exact ih n db

/-- Every single engine operation preserves the one-pass invariant. -/
theorem applyOp_one_pass_invariant (db : DB) (op : Op)
    (h : one_pass_invariant db) : one_pass_invariant (applyOp db op) := by
  cases op with
  | req now sid oid did tl notes =>
    simp only [applyOp]
    cases hr : request_pass db now sid oid did tl notes with
    | error e => exact h
    | ok r =>
      obtain ⟨p, db2⟩ := r
      obtain ⟨-, h2, -, -, -, -, -, hp, hdb2⟩ := request_pass_ok_inv hr
      intro sid'
      rw [hdb2]
      unfold non_terminal_count inserted_db
      simp only [List.filter_append, List.length_append]
      by_cases hs : sid' = sid
      · subst hs
        have hz : non_terminal_count db sid' = 0 := non_terminal_count_eq_zero h2
        unfold non_terminal_count at hz
        rw [hz]
        simpa using List.length_filter_le _ [p]
      · have hps : p.student_id = sid := by rw [hp]; rfl
        have : (List.filter (fun p => p.student_id == sid' && non_terminal p.status) [p]) = [] := by
          simp [hps, Ne.symm hs]
        rw [this]
        simpa using h sid'
  | approve now pid aid =>
    simp only [applyOp]
    cases hr : approve_pass db now pid aid with
    | error e => exact h
    | ok r =>
      obtain ⟨q, hf, hs, hdb2⟩ := approve_pass_ok_inv hr
      intro sid'
      show non_terminal_count r.2 sid' ≤ 1
      rw [hdb2]
      unfold non_terminal_count
      refine le_trans (filter_update_one_length_le ?_) (h sid')
      intro q' hq' hP
      unfold find_pass_by_id at hf
      rw [hf] at hq'
      injection hq' with hq'
      subst hq'
      simpa [approve_pass_update, non_terminal, hs] using hP
  | deny now pid did_ reason =>
    simp only [applyOp]
    cases hr : deny_pass db now pid did_ reason with
    | error e => exact h
    | ok r =>
      obtain ⟨q, hf, hs, hdb2⟩ := deny_pass_ok_inv hr
      intro sid'
      show non_terminal_count r.2 sid' ≤ 1
      rw [hdb2]
      unfold non_terminal_count
      refine le_trans (filter_update_one_length_le ?_) (h sid')
      intro q' _ hP
      simp [deny_pass_update, non_terminal] at hP
  | endp now pid sid =>
    simp only [applyOp]
    cases hr : end_pass db now pid sid with
    | error e => exact h
    | ok r =>
      obtain ⟨q, hf, hsid, hs, hdb2⟩ := end_pass_ok_inv hr
      intro sid'
      show non_terminal_count r.2 sid' ≤ 1
      rw [hdb2]
      unfold non_terminal_count
      refine le_trans (filter_update_one_length_le ?_) (h sid')
      intro q' _ hP
      simp [end_pass_update, non_terminal] at hP
  | sweep now =>
    simp only [applyOp]
    intro sid'
    exact le_trans (sweep_fold_count_le now (find_all_active_passes db 500) sid' 0 db) (h sid')

/-- Every sequence of engine operations preserves the one-pass invariant. -/
theorem applyOps_one_pass_invariant (ops : List Op) :
    ∀ (db : DB), one_pass_invariant db → one_pass_invariant (applyOps db ops) := by
  induction ops with
  | nil => intro db h; exact h
  | cons op rest ih =>
    intro db h
    unfold applyOps
    rw [List.foldl_cons]
    exact ih (applyOp db op) (applyOp_one_pass_invariant db op h)

/-! ## Persistence of approved passes -/

/-- A pass with a given id, student and status `approved` survives the sweep fold. -/
theorem sweep_fold_exists_approved (now : Nat) (batch : List PassDoc) {i : Nat} {s : String} :
    ∀ (n : Nat) (db : DB),
    (∃ q ∈ db.passes, q.id = i ∧ q.student_id = s ∧ q.status = PassStatus.approved) →
    ∃ q ∈ (batch.foldl
        (fun acc pass_doc =>
          if overtime_condition now pass_doc then
            (acc.1 + 1,
             { acc.2 with passes := update_one acc.2.passes pass_doc.id (mark_overtime_update now) })
          else acc)
        (n, db)).2.passes, q.id = i ∧ q.student_id = s ∧ q.status = PassStatus.approved := by
  induction batch with
  | nil => intro n db h; exact h
  | cons q rest ih =>
    intro n db h
    rw [List.foldl_cons]
    by_cases hc : overtime_condition now q = true
    · rw [if_pos hc]
      refine ih _ _ ?_
      exact @exists_mem_update_one db.passes q.id (mark_overtime_update now)
        (fun r => ⟨rfl, rfl, rfl⟩) i s PassStatus.approved h
    · rw [if_neg hc]
      exact ih n db h

/-- A pass with status `approved` (by id and student) survives any single
engine operation: `approve_pass`/`deny_pass` only touch a pending pass,
`end_pass` only touches an active pass, `request_pass` only inserts, and the
sweep only writes the overtime flag. -/
theorem approved_persists_applyOp (db : DB) (op : Op) {i : Nat} {s : String}
    (h : ∃ q ∈ db.passes, q.id = i ∧ q.student_id = s ∧ q.status = PassStatus.approved) :
    ∃ q ∈ (applyOp db op).passes, q.id = i ∧ q.student_id = s ∧ q.status = PassStatus.approved := by
  obtain ⟨q, hq, hqi, hqs, hqa⟩ := h
  cases op with
  | req now sid oid did tl notes =>
    simp only [applyOp]
    cases hr : request_pass db now sid oid did tl notes with
    | error e => exact ⟨q, hq, hqi, hqs, hqa⟩
    | ok r =>
      obtain ⟨p, db2⟩ := r
      obtain ⟨-, -, -, -, -, -, -, -, hdb2⟩ := request_pass_ok_inv hr
      rw [hdb2]
      exact ⟨q, List.mem_append_left _ hq, hqi, hqs, hqa⟩
  | approve now pid aid =>
    simp only [applyOp]
    cases hr : approve_pass db now pid aid with
    | error e => exact ⟨q, hq, hqi, hqs, hqa⟩
    | ok r =>
      obtain ⟨q0, hf, hs0, hdb2⟩ := approve_pass_ok_inv hr
      show ∃ q ∈ r.2.passes, _
      rw [hdb2]
      refine ⟨q, mem_update_one_of_ne hf hq ?_, hqi, hqs, hqa⟩
      intro hqq0
      rw [hqq0, hs0] at hqa
      exact PassStatus.noConfusion hqa
  | deny now pid did_ reason =>
    simp only [applyOp]
    cases hr : deny_pass db now pid did_ reason with
    | error e => exact ⟨q, hq, hqi, hqs, hqa⟩
    | ok r =>
      obtain ⟨q0, hf, hs0, hdb2⟩ := deny_pass_ok_inv hr
      show ∃ q ∈ r.2.passes, _
      rw [hdb2]
      refine ⟨q, mem_update_one_of_ne hf hq ?_, hqi, hqs, hqa⟩
      intro hqq0
      rw [hqq0, hs0] at hqa
      exact PassStatus.noConfusion hqa
  | endp now pid sid =>
    simp only [applyOp]
    cases hr : end_pass db now pid sid with
    | error e => exact ⟨q, hq, hqi, hqs, hqa⟩
    | ok r =>
      obtain ⟨q0, hf, hsid0, hs0, hdb2⟩ := end_pass_ok_inv hr
      show ∃ q ∈ r.2.passes, _
      rw [hdb2]
      refine ⟨q, mem_update_one_of_ne hf hq ?_, hqi, hqs, hqa⟩
      intro hqq0
      rw [hqq0, hs0] at hqa
      exact PassStatus.noConfusion hqa
  | sweep now =>
    simp only [applyOp]
    exact sweep_fold_exists_approved now (find_all_active_passes db 500) 0 db ⟨q, hq, hqi, hqs, hqa⟩

/-- A pass with status `approved` (by id and student) survives any sequence of
engine operations. -/
theorem approved_persists_applyOps (ops : List Op) {i : Nat} {s : String} :
    ∀ (db : DB),
    (∃ q ∈ db.passes, q.id = i ∧ q.student_id = s ∧ q.status = PassStatus.approved) →
    ∃ q ∈ (applyOps db ops).passes, q.id = i ∧ q.student_id = s ∧ q.status = PassStatus.approved := by
  induction ops with
  | nil => intro db h; exact h
  | cons op rest ih =>
    intro db h
    unfold applyOps
    rw [List.foldl_cons]
    exact ih (applyOp db op) (approved_persists_applyOp db op h)

/-- A student holding an approved pass can never successfully request a pass:
the existence check counts status `approved` as blocking. -/
theorem request_pass_blocked_of_approved {db : DB} {s : String}
    (h : ∃ q ∈ db.passes, q.student_id = s ∧ q.status = PassStatus.approved) :
    ∀ (now : Nat) (oid did : String) (tl : Int) (notes : Option String)
      (p : PassDoc) (db2 : DB),
      request_pass db now s oid did tl notes ≠ .ok (p, db2) := by
  intro now oid did tl notes p db2 hok
  obtain ⟨-, h2, -⟩ := request_pass_ok_inv hok
  obtain ⟨q, hq, hqs, hqa⟩ := h
  have : has_active_or_pending_pass db s = true := by
    unfold has_active_or_pending_pass
    rw [List.any_eq_true]
    exact ⟨q, hq, by simp [hqs, hqa]⟩
  rw [this] at h2
  exact Bool.noConfusion h2

/-! ## Claim theorems -/

/-- C1: for every student, at most one pass with status in
{pending, approved, active} exists at any time: the invariant holds after
every sequence of RequestPass / ApprovePass / DenyPass / EndPass (and sweep)
operations executed sequentially from a state satisfying it, because
RequestPass refuses creation while the student holds such a pass and no other
operation creates a pass or moves another pass of the same student into a
non-terminal status. -/
theorem claim_C1_one_pass_invariant (db : DB) (ops : List Op)
    (h : one_pass_invariant db) : one_pass_invariant (applyOps db ops) :=
  applyOps_one_pass_invariant ops db h

theorem claim_C1_witness :
    one_pass_invariant C1_db ∧ non_terminal_count (applyOps C1_db C1_ops) "s1" ≤ 1 := by
  have hinv : one_pass_invariant C1_db := by
    intro sid
    simp [non_terminal_count, C1_db]
  exact ⟨hinv, claim_C1_one_pass_invariant C1_db C1_ops hinv "s1"⟩

/-- C2 counterexample: the destination `L2` of `C2_db` has
`requires_approval = true`, yet the pass created by a successful RequestPass
has status `active` with `departed_at` set — not status `pending` without
`departed_at` as the claim states. -/
theorem claim_C2_counterexample :
    ((find_location C2_db "L2").map (fun l => l.requires_approval) = some true) ∧
    ((request_pass C2_db 0 "s1" "L1" "L2" 5 none).toOption.map
        (fun r => (r.1.status, r.1.departed_at)) = some (PassStatus.active, some 0)) ∧
    ¬ ((request_pass C2_db 0 "s1" "L1" "L2" 5 none).toOption.map
        (fun r => (r.1.status, r.1.departed_at)) = some (PassStatus.pending, none)) := by
  decide

/-- C2 amended: when all preconditions of RequestPass pass, exactly one new
Pass is inserted and returned, and its initial state is always status `active`
with `departed_at` set to the current time (auto-approve / auto-depart),
regardless of `destination.requires_approval`. -/
theorem claim_C2_request_pass_insert {db : DB} {now : Nat} {sid oid did : String}
    {tl : Int} {notes : Option String} {o d : Location}
    (h1 : user_exists db sid = true)
    (h2 : has_active_or_pending_pass db sid = false)
    (ho : find_location db oid = some o)
    (hd : find_location db did = some d)
    (h4 : d.is_active = true)
    (h5 : is_location_at_capacity db did = false)
    (h6 : (count_daily_passes_for_student db sid now : Int) < get_setting db "max_daily_passes" 5)
    (h7l : 1 ≤ tl) (h7r : tl ≤ 60) :
    ∃ p, request_pass db now sid oid did tl notes = .ok (p, inserted_db db p) ∧
      p.status = PassStatus.active ∧ p.departed_at = some now ∧
      p.requested_at = some now ∧ p.student_id = sid ∧ p.time_limit_minutes = tl :=
  ⟨new_pass_doc db now sid oid did tl notes,
   request_pass_ok h1 h2 ho hd h4 h5 h6 h7l h7r, rfl, rfl, rfl, rfl, rfl⟩

theorem claim_C2_witness :
    ∃ p, request_pass C2_db 0 "s1" "L1" "L2" 5 none = .ok (p, inserted_db C2_db p) ∧
      p.status = PassStatus.active ∧ p.departed_at = some 0 ∧
      p.requested_at = some 0 ∧ p.student_id = "s1" ∧ p.time_limit_minutes = 5 :=
  claim_C2_request_pass_insert (by decide) (by decide) rfl rfl (by decide) (by decide)
    (by decide) (by decide) (by decide)

/-- C3 counterexample: in `C3_db` at instant 0 both an active no-fly window
covers the current time and an encounter partner of s1 holds an active pass,
yet s1's RequestPass succeeds — the service never consults either conflict
check, so the claimed BusinessRule rejection does not happen. -/
theorem claim_C3_counterexample :
    (check_no_fly_time C3_db 0).1 = true ∧
    (check_encounter_prevention C3_db "s1").1 = true ∧
    (request_pass C3_db 0 "s1" "L1" "L2" 5 none).isOk = true := by
  refine ⟨by decide, by decide, ?_⟩
  rfl

/-- C3 amended: the conflict conditions are computed only by the standalone
check endpoints: the no-fly check reports a conflict exactly when an active
NoFlyTime (among the first 100) lists today's weekday and its inclusive
"HH:MM" string range contains the current time, and the encounter check
reports a conflict exactly when some other member of an active EncounterGroup
(among the first 100) containing the student holds a status-active pass with
null `end_time`; an inactive group never raises a conflict.  RequestPass
itself performs neither check (see the counterexample). -/
theorem claim_C3_conflict_checks (db : DB) (now : Nat) (sid : String)
    (h100a : (db.no_fly_times.filter (fun nft => nft.is_active)).length ≤ 100)
    (h100b : (db.encounter_groups.filter (fun g =>
        g.is_active && g.student_ids.contains sid)).length ≤ 100) :
    ((check_no_fly_time db now).1 = true ↔
      ∃ nft ∈ db.no_fly_times, nft.is_active = true ∧
        ((weekday now : Int) ∈ nft.days_of_week) ∧
        str_le nft.start_time (hhmm now) = true ∧
        str_le (hhmm now) nft.end_time = true) ∧
    ((check_encounter_prevention db sid).1 = true ↔
      ∃ g ∈ db.encounter_groups, g.is_active = true ∧ sid ∈ g.student_ids ∧
        ∃ other, other ∈ g.student_ids ∧ other ≠ sid ∧
          ∃ p ∈ db.passes, p.student_id = other ∧
            p.status = PassStatus.active ∧ p.end_time = none) := by
  have hgr : encounter_groups_for db sid
      = db.encounter_groups.filter (fun g => g.is_active && g.student_ids.contains sid) := by
    unfold encounter_groups_for
    exact List.take_of_length_le h100b
  constructor
  · unfold check_no_fly_time
    rw [List.take_of_length_le h100a]
    cases hf : List.find? (fun nft =>
        nft.days_of_week.contains ((weekday now : Nat) : Int) &&
        str_le nft.start_time (hhmm now) && str_le (hhmm now) nft.end_time)
        (db.no_fly_times.filter (fun nft => nft.is_active)) with
    | none =>
      constructor
      · intro h
        exact Bool.noConfusion h
      · rintro ⟨nft, hm, hact, hday, hs, he⟩
        exfalso
        have hnone := List.find?_eq_none.mp hf nft (List.mem_filter.mpr ⟨hm, hact⟩)
        exact hnone (by simp [hday, hs, he])
    | some nft =>
      refine iff_of_true rfl ?_
      have hmem := List.mem_of_find?_eq_some hf
      have hpred := List.find?_some hf
      obtain ⟨hm, hact⟩ := List.mem_filter.mp hmem
      simp only [Bool.and_eq_true, List.contains_eq_any_beq, List.any_eq_true,
        beq_iff_eq] at hpred
      obtain ⟨⟨hday, hs⟩, he⟩ := hpred
      obtain ⟨dd, hdd, hddeq⟩ := hday
      exact ⟨nft, hm, hact, by rw [hddeq]; exact hdd, hs, he⟩
  · unfold check_encounter_prevention
    by_cases hg : (encounter_groups_for db sid).isEmpty
    · rw [if_pos hg]
      constructor
      · intro h
        exact Bool.noConfusion h
      · rintro ⟨g, hgm, hact, hsidm, -⟩
        exfalso
        rw [List.isEmpty_iff, hgr] at hg
        have hgin : g ∈ db.encounter_groups.filter
            (fun g => g.is_active && g.student_ids.contains sid) :=
          List.mem_filter.mpr ⟨hgm, by simp [hact, hsidm]⟩
        rw [hg] at hgin
        exact absurd hgin (List.not_mem_nil g)
    · rw [if_neg hg]
      by_cases hap : (encounter_active_passes db sid).isEmpty
      · rw [if_pos hap]
        constructor
        · intro h
          exact Bool.noConfusion h
        · rintro ⟨g, hgm, hact, hsidm, other, hom, hone, p, hpm, hpsid, hpstat, hpend⟩
          exfalso
          rw [List.isEmpty_iff] at hap
          have hgin : g ∈ encounter_groups_for db sid := by
            rw [hgr]
            exact List.mem_filter.mpr ⟨hgm, by simp [hact, hsidm]⟩
          have hother : other ∈ encounter_other_ids db sid := by
            unfold encounter_other_ids
            rw [List.mem_flatten]
            exact ⟨g.student_ids.filter (fun s => s != sid),
              List.mem_map.mpr ⟨g, hgin, rfl⟩,
              List.mem_filter.mpr ⟨hom, by simp [hone]⟩⟩
          have hpin : p ∈ db.passes.filter (fun p =>
              (encounter_other_ids db sid).contains p.student_id &&
              p.status == PassStatus.active && p.end_time == none) := by
            refine List.mem_filter.mpr ⟨hpm, ?_⟩
            rw [hpsid]
            simp [hpstat, hpend, hother]
          unfold encounter_active_passes at hap
          rcases List.take_eq_nil_iff.mp hap with h100 | hnil
          · exact absurd h100 (by decide)
          · rw [hnil] at hpin
            exact absurd hpin (List.not_mem_nil p)
      · rw [if_neg hap]
        refine iff_of_true rfl ?_
        have hap2 : encounter_active_passes db sid ≠ [] := by
          simpa [List.isEmpty_iff] using hap
        obtain ⟨p, hpm⟩ := List.exists_mem_of_ne_nil _ hap2
        have hp2 : p ∈ db.passes.filter (fun p =>
            (encounter_other_ids db sid).contains p.student_id &&
            p.status == PassStatus.active && p.end_time == none) := by
          unfold encounter_active_passes at hpm
          exact (List.take_sublist _ _).subset hpm
        obtain ⟨hpdb, hpred⟩ := List.mem_filter.mp hp2
        simp only [Bool.and_eq_true, beq_iff_eq] at hpred
        obtain ⟨⟨hcont, hstat⟩, hend⟩ := hpred
        have hother : p.student_id ∈ encounter_other_ids db sid := by
          simpa using hcont
        unfold encounter_other_ids at hother
        rw [List.mem_flatten] at hother
        obtain ⟨l, hl, hmeml⟩ := hother
        obtain ⟨g, hgmem, rfl⟩ := List.mem_map.mp hl
        obtain ⟨hings, hbne⟩ := List.mem_filter.mp hmeml
        rw [hgr] at hgmem
        obtain ⟨hgdb, hgpred⟩ := List.mem_filter.mp hgmem
        simp only [Bool.and_eq_true] at hgpred
        refine ⟨g, hgdb, hgpred.1, by simpa using hgpred.2, p.student_id, hings,
          by simpa using hbne, p, hpdb, rfl, hstat, hend⟩

theorem claim_C3_witness :
    ((check_no_fly_time C3_db 0).1 = true ↔
      ∃ nft ∈ C3_db.no_fly_times, nft.is_active = true ∧
        ((weekday 0 : Int) ∈ nft.days_of_week) ∧
        str_le nft.start_time (hhmm 0) = true ∧
        str_le (hhmm 0) nft.end_time = true) ∧
    ((check_encounter_prevention C3_db "s1").1 = true ↔
      ∃ g ∈ C3_db.encounter_groups, g.is_active = true ∧ "s1" ∈ g.student_ids ∧
        ∃ other, other ∈ g.student_ids ∧ other ≠ "s1" ∧
          ∃ p ∈ C3_db.passes, p.student_id = other ∧
            p.status = PassStatus.active ∧ p.end_time = none) :=
  claim_C3_conflict_checks C3_db 0 "s1" (by decide) (by decide)

/-- C4: the daily count consulted by RequestPass is the number of the
student's passes with `requested_at` in `[midnight, midnight + 1 day)`
regardless of their status (it is invariant under arbitrary status rewrites,
so denied and cancelled passes count), the configured maximum defaults to 5
when the setting is absent, and — once the earlier checks pass — the request
is rejected with the daily-limit BusinessRule error exactly when the count is
at least the configured maximum. -/
theorem claim_C4_daily_limit {db : DB} {now : Nat} {sid oid did : String}
    {tl : Int} {notes : Option String} {o d : Location}
    (h1 : user_exists db sid = true)
    (h2 : has_active_or_pending_pass db sid = false)
    (ho : find_location db oid = some o)
    (hd : find_location db did = some d)
    (h4 : d.is_active = true)
    (h5 : is_location_at_capacity db did = false) :
    (count_daily_passes_for_student db sid now =
      (db.passes.filter (fun p => p.student_id == sid &&
        (match p.requested_at with
         | some r => decide (now / 86400 * 86400 ≤ r) &&
             decide (r < now / 86400 * 86400 + 86400)
         | none => false))).length) ∧
    (∀ f : PassDoc → PassStatus,
      count_daily_passes_for_student
        { db with passes := db.passes.map (fun p => { p with status := f p }) } sid now
        = count_daily_passes_for_student db sid now) ∧
    ((db.app_settings.find? (fun kv => kv.1 == "max_daily_passes") = none) →
      get_setting db "max_daily_passes" 5 = 5) ∧
    ((request_pass db now sid oid did tl notes
        = .error (.businessRule ("You have reached your daily pass limit of " ++
            toString (get_setting db "max_daily_passes" 5) ++ " passes.")))
      ↔ (count_daily_passes_for_student db sid now : Int)
          ≥ get_setting db "max_daily_passes" 5) := by
  refine ⟨rfl, ?_, ?_, ?_⟩
  · intro f
    unfold count_daily_passes_for_student
    rw [List.filter_map, List.length_map]
    exact congrArg List.length (List.filter_congr fun p _ => rfl)
  · intro hnone
    unfold get_setting
    rw [hnone]
  · unfold request_pass
    rw [if_neg (by simp [h1]), if_neg (by simp [h2])]
    simp only [ho, hd]
    rw [if_neg (by simp [h4]), if_neg (by simp [h5])]
    by_cases h6 : (count_daily_passes_for_student db sid now : Int)
        ≥ get_setting db "max_daily_passes" 5
    · rw [if_pos h6]
      exact iff_of_true rfl h6
    · rw [if_neg h6]
      refine iff_of_false ?_ h6
      by_cases h7 : tl < 1 ∨ tl > 60
      · rw [if_pos h7]
        intro hc
        exact AppError.noConfusion (Except.error.inj hc)
      · rw [if_neg h7]
        intro hc
        exact Except.noConfusion hc

theorem claim_C4_witness :
    request_pass C4_db 0 "s1" "L1" "L2" 5 none
      = .error (.businessRule ("You have reached your daily pass limit of " ++
          toString (get_setting C4_db "max_daily_passes" 5) ++ " passes.")) :=
  (@claim_C4_daily_limit C4_db 0 "s1" "L1" "L2" 5 none
      (fixture_location "L1" "Classroom 1" none false true)
      (fixture_location "L2" "Nurse" none false true)
      (by decide) (by decide) (by decide) (by decide) (by decide) (by decide)).2.2.2.mpr
    (by decide)

/-- C5: a destination with null `max_capacity` is never at capacity; with
`max_capacity = cap` it is at capacity exactly when the count of active passes
to it reaches `cap`; an at-capacity destination makes RequestPass fail with a
BusinessRule error whose message carries the location's name; and with null
`max_capacity` the request always proceeds past the capacity check to one of
the later outcomes. -/
theorem claim_C5_capacity {db : DB} {now : Nat} {sid oid did : String}
    {tl : Int} {notes : Option String} {o d : Location}
    (h1 : user_exists db sid = true)
    (h2 : has_active_or_pending_pass db sid = false)
    (ho : find_location db oid = some o)
    (hd : find_location db did = some d)
    (h4 : d.is_active = true) :
    (d.max_capacity = none → is_location_at_capacity db did = false) ∧
    (∀ cap, d.max_capacity = some cap →
      (is_location_at_capacity db did = true ↔
        cap ≤ count_active_passes_for_location db did)) ∧
    (is_location_at_capacity db did = true →
      request_pass db now sid oid did tl notes
        = .error (.businessRule (d.name ++ " is currently at capacity. Please try again later."))) ∧
    (d.max_capacity = none →
      request_pass db now sid oid did tl notes
          = .error (.businessRule ("You have reached your daily pass limit of " ++
              toString (get_setting db "max_daily_passes" 5) ++ " passes.")) ∨
      request_pass db now sid oid did tl notes
          = .error (.validation "Time limit must be between 1 and 60 minutes") ∨
      ∃ p db2, request_pass db now sid oid did tl notes = .ok (p, db2)) := by
  have hcapnone : d.max_capacity = none → is_location_at_capacity db did = false := by
    intro hnone
    unfold is_location_at_capacity
    simp only [hd, hnone]
  refine ⟨hcapnone, ?_, ?_, ?_⟩
  · intro cap hcap
    unfold is_location_at_capacity
    simp only [hd, hcap]
    exact decide_eq_true_iff
  · intro hat
    unfold request_pass
    rw [if_neg (by simp [h1]), if_neg (by simp [h2])]
    simp only [ho, hd]
    rw [if_neg (by simp [h4]), if_pos hat]
  · intro hnone
    have h5 := hcapnone hnone
    unfold request_pass
    rw [if_neg (by simp [h1]), if_neg (by simp [h2])]
    simp only [ho, hd]
    rw [if_neg (by simp [h4]), if_neg (by simp [h5])]
    by_cases h6 : (count_daily_passes_for_student db sid now : Int)
        ≥ get_setting db "max_daily_passes" 5
    · rw [if_pos h6]
      exact Or.inl rfl
    · rw [if_neg h6]
      by_cases h7 : tl < 1 ∨ tl > 60
      · rw [if_pos h7]
        exact Or.inr (Or.inl rfl)
      · rw [if_neg h7]
        exact Or.inr (Or.inr ⟨_, _, rfl⟩)

theorem claim_C5_witness :
    is_location_at_capacity C5_db "L2" = true ∧
    request_pass C5_db 0 "s1" "L1" "L2" 5 none
      = .error (.businessRule ("Nurse is currently at capacity. Please try again later.")) := by
  refine ⟨by decide, ?_⟩
  exact (@claim_C5_capacity C5_db 0 "s1" "L1" "L2" 5 none
      (fixture_location "L1" "Classroom 1" none false true)
      (fixture_location "L2" "Nurse" (some 1) false true)
      (by decide) (by decide) (by decide) (by decide) (by decide)).2.2.1 (by decide)

/-- C6: EndPass raises NotFound when the pass does not exist, BusinessRule
when it belongs to another student, BusinessRule when it is not active;
otherwise it sets status `completed` and a non-null `returned_at = now` and
returns the updated pass. -/
theorem claim_C6_end_pass (db : DB) (now : Nat) (pid : Nat) (sid : String) :
    (find_pass_by_id db pid = none →
      end_pass db now pid sid = .error (.notFound "Pass not found")) ∧
    (∀ q, find_pass_by_id db pid = some q → q.student_id ≠ sid →
      end_pass db now pid sid = .error (.businessRule "This pass does not belong to you")) ∧
    (∀ q, find_pass_by_id db pid = some q → q.student_id = sid →
      q.status ≠ PassStatus.active →
      end_pass db now pid sid = .error (.businessRule "This pass has already been ended")) ∧
    (∀ q, find_pass_by_id db pid = some q → q.student_id = sid →
      q.status = PassStatus.active →
      ∃ q', end_pass db now pid sid
          = .ok (some q', { db with passes := update_one db.passes pid (end_pass_update now) }) ∧
        q'.status = PassStatus.completed ∧ q'.returned_at = some now ∧
        q'.returned_at ≠ none ∧ q'.id = q.id ∧ q'.student_id = sid) := by
  refine ⟨?_, ?_, ?_, ?_⟩
  · intro hf
    unfold end_pass
    rw [hf]
  · intro q hf hne
    unfold end_pass
    simp only [hf]
    rw [if_pos hne]
  · intro q hf hsid hst
    unfold end_pass
    simp only [hf]
    rw [if_neg (not_not_intro hsid), if_pos hst]
  · intro q hf hsid hst
    refine ⟨end_pass_update now q, ?_, rfl, rfl, by simp [end_pass_update], rfl,
      by show q.student_id = sid; exact hsid⟩
    unfold end_pass
    simp only [hf]
    rw [if_neg (not_not_intro hsid), if_neg (not_not_intro hst)]
    have hfind : find_pass_by_id
        { db with passes := update_one db.passes pid (end_pass_update now) } pid
        = some (end_pass_update now q) := by
      show (update_one db.passes pid (end_pass_update now)).find? (fun p => p.id == pid)
        = some (end_pass_update now q)
      rw [@find?_update_one db.passes pid (end_pass_update now) (fun p => rfl)]
      unfold find_pass_by_id at hf
      rw [hf]
      rfl
    rw [hfind]

theorem claim_C6_witness :
    ∃ q', end_pass C6_db 100 0 "s1"
        = .ok (some q', { C6_db with passes := update_one C6_db.passes 0 (end_pass_update 100) }) ∧
      q'.status = PassStatus.completed ∧ q'.returned_at = some 100 ∧
      q'.returned_at ≠ none ∧ q'.id = 0 ∧ q'.student_id = "s1" := by
  have h := (claim_C6_end_pass C6_db 100 0 "s1").2.2.2 _ rfl rfl rfl
  exact h

/-- C7: one sweep marks `is_overtime` on exactly those scanned passes (batch
of up to 500) that are active with `departed_at` present, not yet flagged, and
strictly more than `time_limit_minutes` minutes out, and returns the number so
marked; an immediately repeated sweep with unchanged state marks zero passes
and leaves the store unchanged. -/
theorem claim_C7_overtime_sweep (db : DB) (now : Nat)
    (hnd : (db.passes.map (fun p => p.id)).Nodup) :
    ((check_and_mark_overtime_passes db now).1
      = ((find_all_active_passes db 500).filter (fun p =>
          p.status == PassStatus.active &&
          (match p.departed_at with
           | some dep => !p.is_overtime &&
               decide ((now : Int) - (dep : Int) > p.time_limit_minutes * 60)
           | none => false))).length) ∧
    ((check_and_mark_overtime_passes db now).2.passes
      = db.passes.map (fun p =>
          if ((find_all_active_passes db 500).filter (fun q =>
              q.status == PassStatus.active &&
              (match q.departed_at with
               | some dep => !q.is_overtime &&
                   decide ((now : Int) - (dep : Int) > q.time_limit_minutes * 60)
               | none => false))).any (fun q => q.id == p.id)
          then { p with is_overtime := true, updated_at := now } else p)) ∧
    (check_and_mark_overtime_passes (check_and_mark_overtime_passes db now).2 now
      = (0, (check_and_mark_overtime_passes db now).2)) := by
  have hcongr : (find_all_active_passes db 500).filter (fun q =>
      q.status == PassStatus.active &&
      (match q.departed_at with
       | some dep => !q.is_overtime &&
           decide ((now : Int) - (dep : Int) > q.time_limit_minutes * 60)
       | none => false)) = scanned_overtime db now := by
    unfold scanned_overtime
    apply List.filter_congr
    intro p hp
    have hact := (mem_find_all_active_passes hp).2
    unfold overtime_condition
    cases hdep : p.departed_at <;> simp [hact, hdep]
  have h1 := sweep_spec db now hnd
  refine ⟨?_, ?_, ?_⟩
  · rw [h1, hcongr]
  · rw [h1, hcongr]
    exact List.map_congr_left fun p _ => rfl
  · exact sweep_twice db now hnd

theorem claim_C7_witness :
    (check_and_mark_overtime_passes C7_db 600).1 = 1 ∧
    check_and_mark_overtime_passes (check_and_mark_overtime_passes C7_db 600).2 600
      = (0, (check_and_mark_overtime_passes C7_db 600).2) := by
  have h := claim_C7_overtime_sweep C7_db 600 (by decide)
  refine ⟨?_, h.2.2⟩
  rw [h.1]
  decide

/-- C8 counterexample: in `C8_db` both conflict conditions of the claim hold
(an active no-fly window covers the current instant and an encounter partner
holds an active pass) and `time_limit_minutes = 0` also violates the range
check, yet RequestPass returns the Validation error — no conflict check is
evaluated between capacity and daily limit, so the claimed ordering (conflict
BusinessRule before Validation) is false. -/
theorem claim_C8_counterexample :
    (check_no_fly_time C8_db 0).1 = true ∧
    (check_encounter_prevention C8_db "s1").1 = true ∧
    request_pass C8_db 0 "s1" "L1" "L2" 0 none
      = .error (.validation "Time limit must be between 1 and 60 minutes") :=
  ⟨by decide, by decide, rfl⟩

/-- C8 amended: RequestPass evaluates its checks in source order — student
existence (NotFound), non-terminal pass (BusinessRule), origin then
destination existence (NotFound), inactive destination (BusinessRule),
capacity (BusinessRule), daily limit (BusinessRule), and the time-limit range
(Validation) last — failing fast with the error of the first violated check;
no conflict (no-fly / encounter) check is performed. -/
theorem claim_C8_check_order (db : DB) (now : Nat) (sid oid did : String)
    (tl : Int) (notes : Option String) :
    (user_exists db sid = false →
      request_pass db now sid oid did tl notes = .error (.notFound "Student not found")) ∧
    (user_exists db sid = true → has_active_or_pending_pass db sid = true →
      request_pass db now sid oid did tl notes = .error (.businessRule
        "You already have an active or pending pass. Please end your current pass before requesting a new one.")) ∧
    (user_exists db sid = true → has_active_or_pending_pass db sid = false →
      find_location db oid = none →
      request_pass db now sid oid did tl notes
        = .error (.notFound "Origin location not found")) ∧
    (∀ o, user_exists db sid = true → has_active_or_pending_pass db sid = false →
      find_location db oid = some o → find_location db did = none →
      request_pass db now sid oid did tl notes
        = .error (.notFound "Destination location not found")) ∧
    (∀ o d, user_exists db sid = true → has_active_or_pending_pass db sid = false →
      find_location db oid = some o → find_location db did = some d →
      d.is_active = false →
      request_pass db now sid oid did tl notes
        = .error (.businessRule "Destination location is not active")) ∧
    (∀ o d, user_exists db sid = true → has_active_or_pending_pass db sid = false →
      find_location db oid = some o → find_location db did = some d →
      d.is_active = true → is_location_at_capacity db did = true →
      request_pass db now sid oid did tl notes
        = .error (.businessRule (d.name ++ " is currently at capacity. Please try again later."))) ∧
    (∀ o d, user_exists db sid = true → has_active_or_pending_pass db sid = false →
      find_location db oid = some o → find_location db did = some d →
      d.is_active = true → is_location_at_capacity db did = false →
      (count_daily_passes_for_student db sid now : Int)
          ≥ get_setting db "max_daily_passes" 5 →
      request_pass db now sid oid did tl notes
        = .error (.businessRule ("You have reached your daily pass limit of " ++
            toString (get_setting db "max_daily_passes" 5) ++ " passes."))) ∧
    (∀ o d, user_exists db sid = true → has_active_or_pending_pass db sid = false →
      find_location db oid = some o → find_location db did = some d →
      d.is_active = true → is_location_at_capacity db did = false →
      (count_daily_passes_for_student db sid now : Int)
          < get_setting db "max_daily_passes" 5 →
      (tl < 1 ∨ tl > 60) →
      request_pass db now sid oid did tl notes
        = .error (.validation "Time limit must be between 1 and 60 minutes")) ∧
    (∀ o d, user_exists db sid = true → has_active_or_pending_pass db sid = false →
      find_location db oid = some o → find_location db did = some d →
      d.is_active = true → is_location_at_capacity db did = false →
      (count_daily_passes_for_student db sid now : Int)
          < get_setting db "max_daily_passes" 5 →
      1 ≤ tl → tl ≤ 60 →
      request_pass db now sid oid did tl notes
        = .ok (new_pass_doc db now sid oid did tl notes,
               inserted_db db (new_pass_doc db now sid oid did tl notes))) := by
  refine ⟨?_, ?_, ?_, ?_, ?_, ?_, ?_, ?_, ?_⟩
  · intro hu
    unfold request_pass
    rw [if_pos (by simp [hu])]
  · intro hu hhas
    unfold request_pass
    rw [if_neg (by simp [hu]), if_pos hhas]
  · intro hu hhas hono
    unfold request_pass
    rw [if_neg (by simp [hu]), if_neg (by simp [hhas])]
    simp only [hono]
  · intro o hu hhas ho hdno
    unfold request_pass
    rw [if_neg (by simp [hu]), if_neg (by simp [hhas])]
    simp only [ho, hdno]
  · intro o d hu hhas ho hd hdact
    unfold request_pass
    rw [if_neg (by simp [hu]), if_neg (by simp [hhas])]
    simp only [ho, hd]
    rw [if_pos (by simp [hdact])]
  · intro o d hu hhas ho hd hdact hcap
    unfold request_pass
    rw [if_neg (by simp [hu]), if_neg (by simp [hhas])]
    simp only [ho, hd]
    rw [if_neg (by simp [hdact]), if_pos hcap]
  · intro o d hu hhas ho hd hdact hcap hdaily
    unfold request_pass
    rw [if_neg (by simp [hu]), if_neg (by simp [hhas])]
    simp only [ho, hd]
    rw [if_neg (by simp [hdact]), if_neg (by simp [hcap]), if_pos hdaily]
  · intro o d hu hhas ho hd hdact hcap hdaily htl
    unfold request_pass
    rw [if_neg (by simp [hu]), if_neg (by simp [hhas])]
    simp only [ho, hd]
    rw [if_neg (by simp [hdact]), if_neg (by simp [hcap]),
      if_neg (not_le.mpr hdaily), if_pos htl]
  · intro o d hu hhas ho hd hdact hcap hdaily h7l h7r
    exact request_pass_ok hu hhas ho hd hdact hcap hdaily h7l h7r

theorem claim_C8_witness :
    request_pass C8_db 0 "sX" "L1" "L2" 0 none
      = .error (.notFound "Student not found") :=
  (claim_C8_check_order C8_db 0 "sX" "L1" "L2" 0 none).1 (by decide)

/-- C9: once a pass is `approved`, no operation of the subsystem ever changes
its status again — ApprovePass and DenyPass require `pending`, EndPass
requires `active`, RequestPass only inserts, and the sweep writes only the
overtime flag — so after every operation sequence a pass with the same id and
student is still `approved`, and that student's RequestPass can never succeed. -/
theorem claim_C9_approved_frozen (db : DB) (p : PassDoc)
    (hp : p ∈ db.passes) (hst : p.status = PassStatus.approved) (ops : List Op) :
    (∃ q ∈ (applyOps db ops).passes,
        q.id = p.id ∧ q.student_id = p.student_id ∧ q.status = PassStatus.approved) ∧
    (∀ (now : Nat) (oid did : String) (tl : Int) (notes : Option String)
        (p2 : PassDoc) (db2 : DB),
      request_pass (applyOps db ops) now p.student_id oid did tl notes ≠ .ok (p2, db2)) := by
  have hpers := approved_persists_applyOps ops db ⟨p, hp, rfl, rfl, hst⟩
  refine ⟨hpers, ?_⟩
  obtain ⟨q, hq, -, hqs, hqa⟩ := hpers
  exact request_pass_blocked_of_approved ⟨q, hq, hqs, hqa⟩

theorem claim_C9_witness :
    (∃ q ∈ (applyOps C9_db C9_ops).passes,
        q.id = 0 ∧ q.student_id = "s1" ∧ q.status = PassStatus.approved) ∧
    (∀ (p2 : PassDoc) (db2 : DB),
      request_pass (applyOps C9_db C9_ops) 20 "s1" "L1" "L2" 5 none ≠ .ok (p2, db2)) := by
  have h := claim_C9_approved_frozen C9_db C9_pass (by decide) rfl C9_ops
  exact ⟨h.1, fun p2 db2 => h.2 20 "L1" "L2" 5 none p2 db2⟩

/-- C10: whenever RequestPass raises (NotFound, BusinessRule or Validation),
the pass store is left unchanged — nothing is inserted and nothing is
modified; and on success the only change is the single appended pass. -/
theorem claim_C10_no_partial_write (db : DB) (now : Nat) (sid oid did : String)
    (tl : Int) (notes : Option String) :
    (∀ e, request_pass db now sid oid did tl notes = .error e →
      applyOp db (Op.req now sid oid did tl notes) = db) ∧
    (∀ p db2, request_pass db now sid oid did tl notes = .ok (p, db2) →
      db2.passes = db.passes ++ [p] ∧ db2.users = db.users ∧
      db2.locations = db.locations ∧ db2.no_fly_times = db.no_fly_times ∧
      db2.encounter_groups = db.encounter_groups ∧
      db2.app_settings = db.app_settings) := by
  constructor
  · intro e he
    simp only [applyOp]
    rw [he]
  · intro p db2 hok
    obtain ⟨-, -, -, -, -, -, -, -, hdb2⟩ := request_pass_ok_inv hok
    rw [hdb2]
    exact ⟨rfl, rfl, rfl, rfl, rfl, rfl⟩

theorem claim_C10_witness :
    request_pass C10_db 0 "s1" "L1" "LX" 5 none
      = .error (.notFound "Destination location not found") ∧
    applyOp C10_db (Op.req 0 "s1" "L1" "LX" 5 none) = C10_db := by
  refine ⟨rfl, ?_⟩
  exact (claim_C10_no_partial_write C10_db 0 "s1" "L1" "LX" 5 none).1
    (.notFound "Destination location not found") rfl

end SmartPass
